import Mathlib

/-!
Shallow embedding of the covey-town room service core
(`src/lib/CoveyTownController.ts`).

The controller owns one town's players, sessions and listeners and exposes
the join / move / disconnect / update / destroy operations.  All mutation in
the source is single-threaded, so each operation is embedded as a pure
function from the town state to a new town state, paired with the ordered
list of notifications it emits through the registered
`CoveyTownListener`s and the socket.

Listeners are compared by identity in the source (`v !== listener`), so
they are embedded as opaque numeric identities.  Object mutation through
shared references (a `Player` aliased from `_players` and from a session)
is embedded by updating every id-matching occurrence.
-/

namespace CoveyTown

/-- Modelled from the spec: `UserLocation` (`src/CoveyTypes.ts` is not among the
provided sources); the spec describes a location as `{x, y, moving flag, facing direction}`. -/
structure UserLocation where
  x : Int
  y : Int
  moving : Bool
  rotation : String
deriving DecidableEq, Repr

/-- Modelled from the spec: `Player` (`src/types/Player.ts` is not among the provided
sources); the spec gives it an identifier unique within a town, a display name and a
current location, mutated only by movement events for that player. -/
structure Player where
  id : String
  userName : String
  location : UserLocation
deriving DecidableEq, Repr

/-- Modelled from the spec: `Player.updateLocation` — the movement path
"unconditionally overwrites the player's location". -/
def Player.updateLocation (p : Player) (location : UserLocation) : Player :=
  { p with location := location }

/-- Modelled from the spec: `PlayerSession` (`src/types/PlayerSession.ts` is not among
the provided sources); a session binds one player to one opaque session token and a
video token that is populated asynchronously after creation. -/
structure PlayerSession where
  player : Player
  sessionToken : String
  videoToken : Option String
deriving DecidableEq, Repr

/-- A `CoveyTownListener` registration, compared by identity in the source
(`this._listeners.filter(v => v !== listener)`), hence embedded as an opaque
numeric identity. -/
abbrev ListenerId := Nat

/-- One observable notification of the controller: the four
`CoveyTownListener` callbacks, each tagged with the listener identity it was
delivered to, plus the forced socket termination `socket.disconnect(true)`. -/
inductive TownEvent where
  | playerJoined (target : ListenerId) (p : Player)
  | playerMoved (target : ListenerId) (p : Player)
  | playerDisconnected (target : ListenerId) (p : Player)
  | townDestroyed (target : ListenerId)
  | socketTerminated (socket : Nat)
deriving DecidableEq, Repr

/-- The mutable state of one `CoveyTownController`: `_players`, `_sessions`,
`_listeners` and the town metadata fields. -/
structure TownState where
  coveyTownID : String
  friendlyName : String
  townUpdatePassword : String
  isPubliclyListed : Bool
  players : List Player
  sessions : List PlayerSession
  listeners : List ListenerId
deriving DecidableEq, Repr

/-- The constructor: fresh town with empty `_players`, `_sessions`, `_listeners`;
the generated `coveyTownID` and `townUpdatePassword` are taken as parameters. -/
def mkTown (coveyTownID friendlyName townUpdatePassword : String)
    (isPubliclyListed : Bool) : TownState :=
  { coveyTownID := coveyTownID, friendlyName := friendlyName,
    townUpdatePassword := townUpdatePassword, isPubliclyListed := isPubliclyListed,
    players := [], sessions := [], listeners := [] }

/-- `get occupancy(): number { return this._listeners.length; }` -/
def occupancy (s : TownState) : Nat := s.listeners.length

/-- `addTownListener`: `this._listeners.push(listener)` — an unconditional push,
with no duplicate check. -/
def addTownListener (s : TownState) (listener : ListenerId) : TownState :=
  { s with listeners := s.listeners ++ [listener] }

/-- `removeTownListener`: `this._listeners = this._listeners.filter(v => v !== listener)`. -/
def removeTownListener (s : TownState) (listener : ListenerId) : TownState :=
  { s with listeners := s.listeners.filter (fun v => v ≠ listener) }

/-- Phase 1 of `addPlayer`, up to the `await` of the video-token fetch:
`const theSession = new PlayerSession(newPlayer); this._sessions.push(theSession);
this._players.push(newPlayer);`.  The nanoid session token generated by the
`PlayerSession` constructor is a parameter.  Returns the updated state together
with the data the suspended continuation holds. -/
def addPlayer_phase1 (s : TownState) (newPlayer : Player) (sessionToken : String) :
    TownState × PlayerSession :=
  let theSession : PlayerSession :=
    { player := newPlayer, sessionToken := sessionToken, videoToken := none }
  ({ s with sessions := s.sessions ++ [theSession],
            players := s.players ++ [newPlayer] },
   theSession)

/-- Phase 2 of `addPlayer`, from the resolution of
`this._videoClient.getTokenForTown(...)` on: a `none` fetch result embeds the
rejected promise (the `await` throws, so nothing after it runs and the method's
promise rejects, returning no session); a `some` result embeds
`theSession.videoToken = token` followed by
`this._listeners.forEach(listener => listener.onPlayerJoined(newPlayer))` and
`return theSession`.  The assignment to the aliased session object is embedded
by updating the token-matching entry of `_sessions`. -/
def addPlayer_phase2 (s : TownState) (theSession : PlayerSession)
    (fetchResult : Option String) :
    TownState × List TownEvent × Option PlayerSession :=
  match fetchResult with
  | none => (s, [], none)
  | some videoToken =>
    let s' := { s with sessions := s.sessions.map (fun t =>
        if t.sessionToken = theSession.sessionToken
        then { t with videoToken := some videoToken } else t) }
    (s', s'.listeners.map (fun l => TownEvent.playerJoined l theSession.player),
     some { theSession with videoToken := some videoToken })

/-- Modelled from the spec: `passwordMatches` lives in `src/lib/CoveyTownsStore.ts`,
which is not among the provided sources.  The spec describes it as verifying "the
supplied password against the town's immutable password using a constant-shape
comparison"; semantically that is password equality, which is what we embed. -/
def passwordMatches (suppliedPassword savedPassword : String) : Bool :=
  suppliedPassword == savedPassword

/-- `update(coveyTownPassword, friendlyName, makePublic)`: the result flag starts
`false`, becomes `true` on a password match, drops back to `false` on a supplied
empty friendly name (skipping the name write), and the visibility write is guarded
by `result && makePublic !== undefined`. -/
def update (s : TownState) (coveyTownPassword : String)
    (friendlyName : Option String) (makePublic : Option Bool) : TownState × Bool :=
  if passwordMatches coveyTownPassword s.townUpdatePassword then
    let step1 : TownState × Bool :=
      match friendlyName with
      | some name =>
        if name.length = 0 then (s, false)
        else ({ s with friendlyName := name }, true)
      | none => (s, true)
    if step1.2 then
      match makePublic with
      | some b => ({ step1.1 with isPubliclyListed := b }, step1.2)
      | none => step1
    else step1
  else (s, false)

/-- The `update` contract as the specification words it, for comparison with
`update`: return `false` and change nothing if the password does not match or a
supplied friendly name is the empty string (discarding the visibility change of
the same call); otherwise apply the friendly-name change (if given) and the
visibility change (if given) and return `true`. -/
def updateSpecModel (s : TownState) (coveyTownPassword : String)
    (friendlyName : Option String) (makePublic : Option Bool) : TownState × Bool :=
  if ¬ passwordMatches coveyTownPassword s.townUpdatePassword ∨ friendlyName = some "" then
    (s, false)
  else
    let s1 := match friendlyName with
      | some name => { s with friendlyName := name }
      | none => s
    let s2 := match makePublic with
      | some b => { s1 with isPubliclyListed := b }
      | none => s1
    (s2, true)

/-- `onPlayerMovement(player, location)`: `player.updateLocation(location)` mutates
the shared `Player` object (embedded by updating every id-matching occurrence in
`_players` and in the sessions), then
`this._listeners.forEach(listener => listener.onPlayerMoved(player))` delivers the
moved player to every registered listener. -/
def onPlayerMovement (s : TownState) (player : Player) (location : UserLocation) :
    TownState × List TownEvent :=
  let moved := player.updateLocation location
  let s' := { s with
    players := s.players.map (fun q => if q.id = player.id then moved else q),
    sessions := s.sessions.map (fun t =>
      if t.player.id = player.id then { t with player := moved } else t) }
  (s', s.listeners.map (fun l => TownEvent.playerMoved l moved))

/-- `disconnectAllPlayers()`: `this._listeners.forEach(listener =>
listener.onTownDestroyed())` — a broadcast only, the state is not modified. -/
def disconnectAllPlayers (s : TownState) : TownState × List TownEvent :=
  (s, s.listeners.map (fun l => TownEvent.townDestroyed l))

/-- `connect(sessionToken, socket)`: `this._sessions.find(p => p.sessionToken ===
sessionToken)`; on a miss `socket.disconnect(true)` and nothing else; on a hit a
fresh `townSocketAdapter(socket)` listener (its identity is a parameter) is
registered via `addTownListener`, and the `disconnect` / `playerMovement` handlers
the source installs are embedded by invoking `onDisconnect` / `onPlayerMovement`
with the found session when those signals occur.  The `Bool` reports whether a
listener was registered. -/
def connect (s : TownState) (sessionToken : String) (socket : Nat)
    (newListener : ListenerId) : TownState × List TownEvent × Bool :=
  match s.sessions.find? (fun p => p.sessionToken == sessionToken) with
  | none => (s, [TownEvent.socketTerminated socket], false)
  | some _ => (addTownListener s newListener, [], true)

/-- `onDisconnect(listener, session)`: `removeTownListener(listener)`, then
`this._players = this._players.filter(p => p.id !== session.player.id)`, then
`this._sessions = this._sessions.filter(s => s.sessionToken !== session.sessionToken)`,
then `this._listeners.forEach(listener =>
listener.onPlayerDisconnected(session.player))` over the post-removal listener list. -/
def onDisconnect (s : TownState) (listener : ListenerId) (session : PlayerSession) :
    TownState × List TownEvent :=
  let s1 := removeTownListener s listener
  let s2 := { s1 with
    players := s1.players.filter (fun p => p.id ≠ session.player.id),
    sessions := s1.sessions.filter (fun t => t.sessionToken ≠ session.sessionToken) }
  (s2, s2.listeners.map (fun l => TownEvent.playerDisconnected l session.player))

/-- One controller operation, for reasoning about arbitrary operation sequences.
`addPlayer` contributes its two phases separately, at its `await` boundary. -/
inductive TownOp where
  | addPlayerPhase1Op (newPlayer : Player) (sessionToken : String)
  | addPlayerPhase2Op (theSession : PlayerSession) (fetchResult : Option String)
  | connectOp (sessionToken : String) (socket : Nat) (newListener : ListenerId)
  | addListenerOp (listener : ListenerId)
  | removeListenerOp (listener : ListenerId)
  | onDisconnectOp (listener : ListenerId) (session : PlayerSession)
  | disconnectAllOp
  | moveOp (player : Player) (location : UserLocation)

/-- The state transition of one operation (notifications discarded). -/
def applyOp (s : TownState) : TownOp → TownState
  | .addPlayerPhase1Op p tok => (addPlayer_phase1 s p tok).1
  | .addPlayerPhase2Op sess res => (addPlayer_phase2 s sess res).1
  | .connectOp tok sock l => (connect s tok sock l).1
  | .addListenerOp l => addTownListener s l
  | .removeListenerOp l => removeTownListener s l
  | .onDisconnectOp l sess => (onDisconnect s l sess).1
  | .disconnectAllOp => (disconnectAllPlayers s).1
  | .moveOp p loc => (onPlayerMovement s p loc).1

/-- Run a sequence of controller operations from a state. -/
def runOps (s : TownState) (ops : List TownOp) : TownState :=
  ops.foldl applyOp s

/-! Concrete fixtures used to evaluate the operations on explicit inputs. -/

/-- A concrete starting location. -/
def loc0 : UserLocation := { x := 0, y := 0, moving := false, rotation := "front" }

/-- A concrete movement target, the spec's example location. -/
def loc1 : UserLocation := { x := 100, y := 100, moving := true, rotation := "back" }

/-- A concrete player. -/
def alice : Player := { id := "id-alice", userName := "alice", location := loc0 }

/-- A second concrete player. -/
def bob : Player := { id := "id-bob", userName := "bob", location := loc0 }

/-- Bob's live session. -/
def sessB : PlayerSession :=
  { player := bob, sessionToken := "tokenB", videoToken := some "vidB" }

/-- Alice's live session. -/
def sessA : PlayerSession :=
  { player := alice, sessionToken := "tokenA", videoToken := some "vidA" }

/-- A town in which bob is joined and one listener (identity `7`) is registered. -/
def town0 : TownState :=
  { coveyTownID := "T0", friendlyName := "test town", townUpdatePassword := "pw0",
    isPubliclyListed := false,
    players := [bob], sessions := [sessB], listeners := [7] }

/-- A town in which alice and bob are joined and bob's listener (identity `2`)
is registered; alice has not yet opened her live connection. -/
def townM : TownState :=
  { coveyTownID := "TM", friendlyName := "move town", townUpdatePassword := "pwM",
    isPubliclyListed := false,
    players := [alice, bob], sessions := [sessA, sessB], listeners := [2] }

/-- A town in which alice and bob are joined with listeners `1` (alice) and
`2` (bob) registered. -/
def townD : TownState :=
  { coveyTownID := "TD", friendlyName := "disc town", townUpdatePassword := "pwD",
    isPubliclyListed := false,
    players := [alice, bob], sessions := [sessA, sessB], listeners := [1, 2] }

/-! ## Theorems -/

/-- Claim C4 (confirmed): `addPlayer` is two-phase and not atomic end-to-end —
phase 1 inserts the new Player and its Session into the town's collections
before the video-token fetch resolves, and phase 2, once the fetch resolves,
emits the player-joined notification to exactly the listeners registered at
completion time (whatever happened to the listener list in between). -/
theorem addPlayer_two_phase (s : TownState) (newPlayer : Player) (tok : String) :
    (addPlayer_phase1 s newPlayer tok).1.players = s.players ++ [newPlayer]
    ∧ (addPlayer_phase1 s newPlayer tok).1.sessions
        = s.sessions ++ [{ player := newPlayer, sessionToken := tok, videoToken := none }]
    ∧ ∀ (s2 : TownState) (videoTok : String),
        (addPlayer_phase2 s2 (addPlayer_phase1 s newPlayer tok).2 (some videoTok)).1.listeners
          = s2.listeners
        ∧ (addPlayer_phase2 s2 (addPlayer_phase1 s newPlayer tok).2 (some videoTok)).2.1
          = s2.listeners.map (fun l => TownEvent.playerJoined l newPlayer) := by
  refine ⟨rfl, rfl, fun s2 videoTok => ⟨?_, ?_⟩⟩ <;>
    simp [addPlayer_phase1, addPlayer_phase2]

/-- Claim C1 (code_bug evidence): with bob joined and listener `7` registered,
`addPlayer(alice)` whose video-token fetch fails emits no player-joined
notification (the abort-before-broadcast half of the claim holds), but the
players and sessions collections are NOT rolled back: alice's Player and
Session remain inserted, so the state differs from the pre-call state. -/
theorem addPlayer_failed_fetch_no_rollback :
    addPlayer_phase2 (addPlayer_phase1 town0 alice "tokenA").1
        (addPlayer_phase1 town0 alice "tokenA").2 none
      = ((addPlayer_phase1 town0 alice "tokenA").1, [], none)
    ∧ (addPlayer_phase1 town0 alice "tokenA").1.players = [bob, alice]
    ∧ (addPlayer_phase1 town0 alice "tokenA").1.players ≠ town0.players
    ∧ (addPlayer_phase1 town0 alice "tokenA").1.sessions.map PlayerSession.sessionToken
      = ["tokenB", "tokenA"] := by
  decide

/-- Claim C3 (counterexample): starting from `town0`, alice's join phase 1 runs,
then her session is destroyed by a disconnect while her video-token fetch is
still pending (afterwards no session with her token remains), yet when the
fetch resolves a player-joined notification for alice IS broadcast — the
completion path performs no re-check. -/
theorem addPlayer_no_recheck_cex :
    (onDisconnect (addPlayer_phase1 town0 alice "tokenA").1 1
        (addPlayer_phase1 town0 alice "tokenA").2).1.sessions = [sessB]
    ∧ (addPlayer_phase2
        (onDisconnect (addPlayer_phase1 town0 alice "tokenA").1 1
          (addPlayer_phase1 town0 alice "tokenA").2).1
        (addPlayer_phase1 town0 alice "tokenA").2 (some "vid")).2.1
      = [TownEvent.playerJoined 7 alice] := by
  decide

/-- Claim C3 (amended): the completion path of `addPlayer` performs no liveness
re-check — when the fetch resolves, the player-joined notification is broadcast
to every listener registered at completion time unconditionally, for every
completion-time state, in particular also when the pending player's session was
destroyed during the fetch. -/
theorem addPlayer_phase2_no_membership_recheck (s2 : TownState)
    (theSession : PlayerSession) (videoTok : String) :
    (addPlayer_phase2 s2 theSession (some videoTok)).2.1
      = s2.listeners.map (fun l => TownEvent.playerJoined l theSession.player) := by
  simp [addPlayer_phase2]

/-- A string has length `0` iff it is the empty string (bridges the source's
`friendlyName.length === 0` test with the spec's "empty string"). -/
theorem string_length_eq_zero_iff (s : String) : s.length = 0 ↔ s = "" := by
  obtain ⟨data⟩ := s
  simp [String.length, String.ext_iff, List.length_eq_zero]

/-- Claim C5 (confirmed): `update` realises the spec's contract exactly — it
returns `false` and changes nothing when the password does not match or a
supplied friendly name is empty (discarding the visibility change supplied in
the same call), and otherwise returns `true` and applies the supplied
friendly-name and visibility changes. -/
theorem update_matches_spec_contract (s : TownState) (coveyTownPassword : String)
    (friendlyName : Option String) (makePublic : Option Bool) :
    update s coveyTownPassword friendlyName makePublic
      = updateSpecModel s coveyTownPassword friendlyName makePublic := by
  unfold update updateSpecModel
  cases hpm : passwordMatches coveyTownPassword s.townUpdatePassword
  · simp [hpm]
  · cases friendlyName with
    | none => cases makePublic <;> simp [hpm]
    | some name =>
      by_cases hname : name.length = 0
      · have hempty : name = "" := (string_length_eq_zero_iff name).mp hname
        subst hempty
        cases makePublic <;> simp [hpm]
      · have hne : name ≠ "" := fun h => hname ((string_length_eq_zero_iff name).mpr h)
        cases makePublic <;> simp [hpm, hname, hne]

/-- Claim C2 (counterexample): in `townM`, alice connects her live socket with
her session token, registering listener `1` for her; when she then sends a
movement update, the broadcast goes to BOTH listeners — bob's listener `2` and
alice's own listener `1` — so alice's own Listener does receive the
player-moved event back, contrary to the claim. -/
theorem onPlayerMovement_echoes_to_mover_cex :
    (connect townM "tokenA" 0 1).2.2 = true
    ∧ (connect townM "tokenA" 0 1).1.listeners = [2, 1]
    ∧ (onPlayerMovement (connect townM "tokenA" 0 1).1 alice loc1).2
      = [TownEvent.playerMoved 2 (Player.updateLocation alice loc1),
         TownEvent.playerMoved 1 (Player.updateLocation alice loc1)] := by
  decide

/-- Claim C2 (amended): when a connected occupant sends a movement update, the
player's location is overwritten with the new location and every currently
registered Listener — including the mover's own — receives exactly one
player-moved notification carrying the updated Player. -/
theorem onPlayerMovement_broadcasts_to_every_listener (s : TownState) (player : Player)
    (location : UserLocation) (hnd : s.listeners.Nodup) :
    (∀ q ∈ (onPlayerMovement s player location).1.players,
        q.id = player.id → q.location = location)
    ∧ (onPlayerMovement s player location).2
        = s.listeners.map (fun l => TownEvent.playerMoved l (player.updateLocation location))
    ∧ ∀ l ∈ s.listeners,
        ((onPlayerMovement s player location).2).count
          (TownEvent.playerMoved l (player.updateLocation location)) = 1 := by
  refine ⟨?_, rfl, ?_⟩
  · intro q hq hid
    simp only [onPlayerMovement, List.mem_map] at hq
    obtain ⟨p, _, hqe⟩ := hq
    by_cases h : p.id = player.id
    · simp only [h, if_true] at hqe
      subst hqe
      rfl
    · simp only [h, if_false] at hqe
      subst hqe
      exact absurd hid h
  · intro l hl
    have hinj : Function.Injective
        (fun l => TownEvent.playerMoved l (player.updateLocation location)) := by
      intro a b hab
      simpa using hab
    exact List.count_eq_one_of_mem (hnd.map hinj) (List.mem_map_of_mem _ hl)

/-- Witness for the amended C2 theorem at the concrete town `townM`. -/
theorem onPlayerMovement_broadcasts_to_every_listener_witness :
    townM.listeners.Nodup
    ∧ ((∀ q ∈ (onPlayerMovement townM alice loc1).1.players,
          q.id = alice.id → q.location = loc1)
      ∧ (onPlayerMovement townM alice loc1).2
          = townM.listeners.map (fun l => TownEvent.playerMoved l (alice.updateLocation loc1))
      ∧ ∀ l ∈ townM.listeners,
          ((onPlayerMovement townM alice loc1).2).count
            (TownEvent.playerMoved l (alice.updateLocation loc1)) = 1) :=
  ⟨by decide, onPlayerMovement_broadcasts_to_every_listener townM alice loc1 (by decide)⟩

/-- Filtering a list twice with the same predicate is the same as filtering once. -/
theorem filter_idem {α : Type} (p : α → Bool) (l : List α) :
    (l.filter p).filter p = l.filter p :=
  List.filter_eq_self.mpr (fun _ ha => List.of_mem_filter ha)

/-- Claim C6 (confirmed): for a registered listener and a live session,
`onDisconnect` removes the listener from the listener list (keeping the
others), removes the session's player from the players list (keeping the
others), removes the session from the sessions list, and emits exactly one
player-disconnected notification carrying the removed player to every
remaining listener; the disconnecting listener itself receives none. -/
theorem onDisconnect_spec (s : TownState) (listener : ListenerId)
    (session : PlayerSession) (hl : listener ∈ s.listeners)
    (hs : session ∈ s.sessions) (hnd : s.listeners.Nodup) :
    listener ∉ (onDisconnect s listener session).1.listeners
    ∧ (∀ l ∈ s.listeners, l ≠ listener → l ∈ (onDisconnect s listener session).1.listeners)
    ∧ (∀ p ∈ (onDisconnect s listener session).1.players, p.id ≠ session.player.id)
    ∧ (∀ p ∈ s.players, p.id ≠ session.player.id → p ∈ (onDisconnect s listener session).1.players)
    ∧ (∀ t ∈ (onDisconnect s listener session).1.sessions, t.sessionToken ≠ session.sessionToken)
    ∧ (onDisconnect s listener session).2
        = (onDisconnect s listener session).1.listeners.map
            (fun l => TownEvent.playerDisconnected l session.player)
    ∧ (∀ l ∈ (onDisconnect s listener session).1.listeners,
        ((onDisconnect s listener session).2).count
          (TownEvent.playerDisconnected l session.player) = 1)
    ∧ ∀ p : Player, TownEvent.playerDisconnected listener p ∉ (onDisconnect s listener session).2 := by
  have hlst : (onDisconnect s listener session).1.listeners
      = s.listeners.filter (fun v => v ≠ listener) := rfl
  refine ⟨?_, ?_, ?_, ?_, ?_, rfl, ?_, ?_⟩
  · rw [hlst]
    simp
  · intro l hmem hne
    rw [hlst]
    simp [hmem, hne]
  · intro p hp
    have := List.of_mem_filter hp
    simpa using this
  · intro p hp hid
    show p ∈ s.players.filter (fun q => q.id ≠ session.player.id)
    exact List.mem_filter.mpr ⟨hp, by simpa using hid⟩
  · intro t ht
    have := List.of_mem_filter ht
    simpa using this
  · intro l hmem
    have hinj : Function.Injective
        (fun l => TownEvent.playerDisconnected l session.player) := by
      intro a b hab
      simpa using hab
    have hnd' : (onDisconnect s listener session).1.listeners.Nodup := by
      rw [hlst]
      exact hnd.filter _
    exact List.count_eq_one_of_mem (hnd'.map hinj) (List.mem_map_of_mem _ hmem)
  · intro p hmem
    simp only [onDisconnect, List.mem_map] at hmem
    obtain ⟨a, ha, hae⟩ := hmem
    have h1 : a = listener := by
      have := congrArg (fun e => match e with
        | TownEvent.playerDisconnected t _ => t
        | _ => 0) hae
      simpa using this
    have h2 : a ≠ listener := by
      have := List.of_mem_filter ha
      simpa using this
    exact h2 h1

/-- Witness for the C6 theorem at the concrete town `townD`, disconnecting
alice's listener `1` with her session. -/
theorem onDisconnect_spec_witness :
    (1 ∈ townD.listeners ∧ sessA ∈ townD.sessions ∧ townD.listeners.Nodup)
    ∧ (1 ∉ (onDisconnect townD 1 sessA).1.listeners
      ∧ (∀ l ∈ townD.listeners, l ≠ 1 → l ∈ (onDisconnect townD 1 sessA).1.listeners)
      ∧ (∀ p ∈ (onDisconnect townD 1 sessA).1.players, p.id ≠ sessA.player.id)
      ∧ (∀ p ∈ townD.players, p.id ≠ sessA.player.id → p ∈ (onDisconnect townD 1 sessA).1.players)
      ∧ (∀ t ∈ (onDisconnect townD 1 sessA).1.sessions, t.sessionToken ≠ sessA.sessionToken)
      ∧ (onDisconnect townD 1 sessA).2
          = (onDisconnect townD 1 sessA).1.listeners.map
              (fun l => TownEvent.playerDisconnected l sessA.player)
      ∧ (∀ l ∈ (onDisconnect townD 1 sessA).1.listeners,
          ((onDisconnect townD 1 sessA).2).count
            (TownEvent.playerDisconnected l sessA.player) = 1)
      ∧ ∀ p : Player, TownEvent.playerDisconnected 1 p ∉ (onDisconnect townD 1 sessA).2) :=
  ⟨⟨by decide, by decide, by decide⟩,
   onDisconnect_spec townD 1 sessA (by decide) (by decide) (by decide)⟩

/-- Claim C7 (confirmed): `connect` with a session token matching no live
session terminates the socket, leaves the state unchanged (so registers no
listener) and emits no listener notification; in particular, a token whose
session was destroyed by a prior `onDisconnect` is always rejected this way,
so reuse never yields a second live listener. -/
theorem connect_rejects_unknown_token (s : TownState) (tok : String) (sock : Nat)
    (newL : ListenerId) (h : ∀ t ∈ s.sessions, t.sessionToken ≠ tok) :
    connect s tok sock newL = (s, [TownEvent.socketTerminated sock], false)
    ∧ ∀ (s0 : TownState) (lst : ListenerId) (sess : PlayerSession) (sock' : Nat)
        (newL' : ListenerId),
        connect (onDisconnect s0 lst sess).1 sess.sessionToken sock' newL'
          = ((onDisconnect s0 lst sess).1, [TownEvent.socketTerminated sock'], false) := by
  constructor
  · have hfind : s.sessions.find? (fun p => p.sessionToken == tok) = none := by
      rw [List.find?_eq_none]
      intro t ht
      simpa using h t ht
    simp [connect, hfind]
  · intro s0 lst sess sock' newL'
    have hsess : (onDisconnect s0 lst sess).1.sessions
        = s0.sessions.filter (fun t => t.sessionToken ≠ sess.sessionToken) := rfl
    have hfind : ((onDisconnect s0 lst sess).1.sessions).find?
        (fun p => p.sessionToken == sess.sessionToken) = none := by
      rw [hsess, List.find?_eq_none]
      intro t ht
      have := List.of_mem_filter ht
      simpa using this
    simp [connect, hfind]

/-- Witness for the C7 theorem: `townM` holds no session with token `"tokenZ"`,
and connecting with that token changes nothing and terminates the socket. -/
theorem connect_rejects_unknown_token_witness :
    (∀ t ∈ townM.sessions, t.sessionToken ≠ "tokenZ")
    ∧ (connect townM "tokenZ" 5 9 = (townM, [TownEvent.socketTerminated 5], false)
      ∧ ∀ (s0 : TownState) (lst : ListenerId) (sess : PlayerSession) (sock' : Nat)
          (newL' : ListenerId),
          connect (onDisconnect s0 lst sess).1 sess.sessionToken sock' newL'
            = ((onDisconnect s0 lst sess).1, [TownEvent.socketTerminated sock'], false)) :=
  ⟨by decide, connect_rejects_unknown_token townM "tokenZ" 5 9 (by decide)⟩

/-- Claim C8 (counterexample): in `townD`, after alice's teardown
`onDisconnect(1, sessA)` has already run, invoking it a second time for the
same pair leaves the state unchanged but broadcasts a SECOND
player-disconnected notification to the remaining listener `2` — the second
broadcast the claim says must not happen. -/
theorem onDisconnect_second_call_rebroadcasts_cex :
    (onDisconnect (onDisconnect townD 1 sessA).1 1 sessA).1
      = (onDisconnect townD 1 sessA).1
    ∧ (onDisconnect townD 1 sessA).2 = [TownEvent.playerDisconnected 2 alice]
    ∧ (onDisconnect (onDisconnect townD 1 sessA).1 1 sessA).2
      = [TownEvent.playerDisconnected 2 alice]
    ∧ (onDisconnect (onDisconnect townD 1 sessA).1 1 sessA).2 ≠ [] := by
  decide

/-- Claim C8 (amended): a second `onDisconnect` for the same listener/session
pair leaves the town state — listeners, players, sessions, hence occupancy —
exactly as after the first call, but it does re-broadcast a player-disconnected
notification for the session's player to every remaining listener. -/
theorem onDisconnect_state_idempotent_but_rebroadcasts (s : TownState)
    (listener : ListenerId) (session : PlayerSession) :
    (onDisconnect (onDisconnect s listener session).1 listener session).1
      = (onDisconnect s listener session).1
    ∧ (onDisconnect (onDisconnect s listener session).1 listener session).2
      = (onDisconnect s listener session).1.listeners.map
          (fun l => TownEvent.playerDisconnected l session.player) := by
  constructor
  · simp [onDisconnect, removeTownListener, filter_idem]
  · simp [onDisconnect, removeTownListener, filter_idem]

/-- Claim C9 (confirmed): `occupancy` returns the length of the listener list
after every sequence of controller operations; a concrete reachable state (a
join whose token fetch is still pending) shows it tracking the listener count
`0` while the player count is `1` — never the player count when they differ. -/
theorem occupancy_counts_listeners :
    (∀ (s : TownState) (ops : List TownOp),
        occupancy (runOps s ops) = (runOps s ops).listeners.length)
    ∧ occupancy (runOps (mkTown "T9" "nine" "pw9" false)
        [TownOp.addPlayerPhase1Op alice "tokenA"]) = 0
    ∧ (runOps (mkTown "T9" "nine" "pw9" false)
        [TownOp.addPlayerPhase1Op alice "tokenA"]).players.length = 1
    ∧ occupancy (runOps (mkTown "T9" "nine" "pw9" false)
        [TownOp.addPlayerPhase1Op alice "tokenA"])
      ≠ (runOps (mkTown "T9" "nine" "pw9" false)
        [TownOp.addPlayerPhase1Op alice "tokenA"]).players.length :=
  ⟨fun _ _ => rfl, by decide, by decide, by decide⟩

/-- Claim C10 (confirmed): `addTownListener` performs no duplicate check —
registering the same listener identity twice yields two registrations, adds
two to the occupancy, and a broadcast (town-destroyed here) reaches that
identity once per registration; one `removeTownListener` call then removes
every registration of that identity at once. -/
theorem addTownListener_no_duplicate_check (s : TownState) (l : ListenerId) :
    (addTownListener (addTownListener s l) l).listeners.count l
      = s.listeners.count l + 2
    ∧ occupancy (addTownListener (addTownListener s l) l) = occupancy s + 2
    ∧ (disconnectAllPlayers (addTownListener (addTownListener s l) l)).2.count
        (TownEvent.townDestroyed l) = s.listeners.count l + 2
    ∧ (removeTownListener (addTownListener (addTownListener s l) l) l).listeners.count l
      = 0 := by
  have hinj : Function.Injective TownEvent.townDestroyed := by
    intro a b hab
    simpa using hab
  refine ⟨?_, ?_, ?_, ?_⟩
  · simp [addTownListener, List.count_append]
  · simp [addTownListener, occupancy]
  · show (((s.listeners ++ [l]) ++ [l]).map TownEvent.townDestroyed).count
        (TownEvent.townDestroyed l) = s.listeners.count l + 2
    rw [List.count_map_of_injective _ _ hinj]
    simp [List.count_append]
  · rw [List.count_eq_zero]
    intro hmem
    have := List.of_mem_filter hmem
    simp at this

end CoveyTown
